import Mathlib

/-!
Verification of the authentication and ownership-scoped data-access core of the
multi-user todo service (FastAPI backend of the repository).

The persisted store (SQLite via SQLModel) is embedded as an explicit state
value `DB` holding the `user` and `todo` tables as lists together with the
next primary-key values.  Each backend operation becomes a pure function from
the pre-state to a result paired with the post-state; a raised exception
becomes an `Except` error, and SQLAlchemy's rollback-on-failure is reflected
by returning the pre-state unchanged on the error path.

External dependencies (passlib's bcrypt context and python-jose's JWT codec)
are not part of the repository; they are modelled by computable functions that
follow their documented behaviour, each marked as such in its doc comment.
-/

/-- Row of the `user` table (backend/models.py, class `User`). -/
structure User where
  id : Nat
  email : String
  hashed_password : String
  is_active : Bool
  is_admin : Bool
deriving Repr, DecidableEq

/-- Row of the `todo` table (backend/models.py, class `Todo`). -/
structure Todo where
  id : Nat
  title : String
  description : Option String
  is_done : Bool
  owner_id : Nat
deriving Repr, DecidableEq

/-- The persisted store: both tables plus the autoincrement counters. -/
structure DB where
  users : List User
  todos : List Todo
  nextUserId : Nat
  nextTodoId : Nat
deriving Repr, DecidableEq

/-- Request schema for user creation (backend/schemas.py, class `UserCreate`).
It carries `is_admin`, defaulted to `false`, alongside the credentials. -/
structure UserCreate where
  email : String
  password : String
  is_active : Bool := true
  is_admin : Bool := false
deriving Repr, DecidableEq

/-- The pydantic validator on `UserCreate.password`: at least 8 characters. -/
def UserCreate.passwordOk (uc : UserCreate) : Prop :=
  8 ≤ uc.password.length

/-- Request schema for todo creation (backend/schemas.py, `TodoCreate`,
inheriting the fields of `TodoBase`). -/
structure TodoCreate where
  title : String
  description : Option String := none
  is_done : Bool := false
deriving Repr, DecidableEq

/-- Request schema for todo updates (backend/schemas.py, `TodoUpdate`).  Every
field is optional; the outer `Option` is pydantic's set/unset distinction
(`exclude_unset`), the inner one an explicitly transmitted `null`. -/
structure TodoUpdate where
  title : Option (Option String) := none
  description : Option (Option String) := none
  is_done : Option (Option Bool) := none
deriving Repr, DecidableEq

deriving instance DecidableEq for Except

/-- An HTTPException as raised by the backend: status code and detail. -/
structure HttpError where
  statusCode : Nat
  detail : String
deriving Repr, DecidableEq

/-! ## Credential codec (backend/security.py plus the external passlib) -/

/-- Model of the external bcrypt key-derivation core used by passlib: a
salt-keyed one-way transform of the plaintext.  The concrete cipher is
immaterial to the repository's logic; what the model preserves is that the
output is determined by `(salt, password)` and recomputable at verify time. -/
def bcryptTransform (salt : Nat) (password : String) : String :=
  String.mk (password.data.map (fun c => Char.ofNat ((c.toNat + salt + 1) % 55296)))

/-- Model of passlib's `CryptContext.hash` for the bcrypt scheme: the output
is a format-tagged string `$2b$12$<salt><digest>`; the salt is drawn fresh by
passlib for every call and is made an explicit argument here (written in
unary so that parsing it back is elementary). -/
def get_password_hash (salt : Nat) (password : String) : String :=
  "$2b$12$" ++ String.mk (List.replicate salt 'x') ++ "$" ++ bcryptTransform salt password

/-- Consume an expected literal from the front of a character list. -/
def consumeLit : List Char → List Char → Option (List Char)
  | [], cs => some cs
  | _ :: _, [] => none
  | l :: ls, c :: cs => if c = l then consumeLit ls cs else none

/-- Read back the unary salt written by `get_password_hash`, up to the `$`
separator; anything else means the string is not a hash of this scheme. -/
def splitSalt : List Char → Option (Nat × List Char)
  | [] => none
  | c :: cs =>
    if c = '$' then some (0, cs)
    else if c = 'x' then
      match splitSalt cs with
      | some (n, rest) => some (n + 1, rest)
      | none => none
    else none

/-- Recognize a bcrypt hash and recover its salt and digest.  Mirrors
passlib's hash identification: a string that does not carry the scheme's
format is not attributed to any hasher. -/
def parseBcrypt (h : String) : Option (Nat × List Char) :=
  match consumeLit "$2b$12$".data h.data with
  | none => none
  | some rest => splitSalt rest

/-- The error passlib raises when a hash cannot be identified
(`UnknownHashError`, a `ValueError`). -/
inductive PasslibError where
  | unknownHash
deriving Repr, DecidableEq

/-- Model of the external `CryptContext.verify`: per passlib's documented
contract it returns a boolean verdict for a recognizable hash and raises
`UnknownHashError` for a string no configured scheme identifies. -/
def pwdContextVerify (plain : String) (hashed : String) : Except PasslibError Bool :=
  match parseBcrypt hashed with
  | none => .error PasslibError.unknownHash
  | some (salt, digest) => .ok (decide ((bcryptTransform salt plain).data = digest))

/-- backend/security.py, `verify_password`: a bare delegation to
`pwd_context.verify`, with no exception handling of its own. -/
def verify_password (plain_password : String) (hashed_password : String) :
    Except PasslibError Bool :=
  pwdContextVerify plain_password hashed_password

/-! ## Token service (backend/security.py plus the external python-jose) -/

/-- backend/security.py, `SECRET_KEY`. -/
def SECRET_KEY : String := "your-secret-key-replace-in-production"

/-- backend/security.py, `ACCESS_TOKEN_EXPIRE_MINUTES`. -/
def ACCESS_TOKEN_EXPIRE_MINUTES : Int := 30

/-- Claims carried by a token: the subject (may be absent in a malformed
payload) and the expiry instant in seconds (absent claims are skipped by the
decoder). -/
structure JwtPayload where
  sub : Option String
  exp : Option Int
deriving Repr, DecidableEq

/-- A bearer token: its claims plus the key it was signed with.  Recording
the signing key models an ideal MAC: the signature checks out exactly when
the verifier's key equals the signer's. -/
structure JwtToken where
  payload : JwtPayload
  key : String
deriving Repr, DecidableEq

/-- The errors python-jose raises from `jwt.decode`; both derive from
`JWTError` and are caught identically by the backend. -/
inductive JoseError where
  | signatureInvalid
  | expiredSignature
deriving Repr, DecidableEq

/-- backend/security.py, `create_access_token`: copies the claims, sets
`exp := now + expires_delta` (default 30 minutes) and signs with
`SECRET_KEY`. -/
def create_access_token (sub : Option String) (now : Int) (expires_delta : Option Int) :
    JwtToken :=
  let expire := match expires_delta with
    | some d => now + d
    | none => now + ACCESS_TOKEN_EXPIRE_MINUTES * 60
  { payload := { sub := sub, exp := some expire }, key := SECRET_KEY }

/-- Model of the external python-jose `jwt.decode` with default options: the
signature is checked first, then the `exp` claim with zero leeway.  Following
the library's implementation, `ExpiredSignatureError` is raised only when
`exp < now`, so a token presented at exactly its expiry instant is still
accepted. -/
def jwtDecode (token : JwtToken) (key : String) (now : Int) : Except JoseError JwtPayload :=
  if token.key ≠ key then .error JoseError.signatureInvalid
  else
    match token.payload.exp with
    | some e => if e < now then .error JoseError.expiredSignature else .ok token.payload
    | none => .ok token.payload

/-! ## Identity store (backend/repository.py, `UserRepository`) -/

/-- `UserRepository.get_by_email` / crud `get_user_by_email`: first row of
`SELECT * FROM user WHERE email = ?` (exact, case-sensitive match). -/
def get_by_email (db : DB) (email : String) : Option User :=
  db.users.find? (fun u => u.email == email)

/-- `session.get(User, user_id)`: primary-key lookup. -/
def get_user_by_id (db : DB) (user_id : Nat) : Option User :=
  db.users.find? (fun u => u.id == user_id)

/-- `UserRepository.create`: hashes the password, builds the row from every
schema field except the plaintext, and inserts.  The UNIQUE index on
`user.email` rejects a duplicate at commit; the repository rolls back and
raises `ValueError` with the duplicate message, leaving the store as it
was. -/
def UserRepository_create (db : DB) (salt : Nat) (uc : UserCreate) :
    Except String User × DB :=
  if db.users.any (fun u => u.email == uc.email) then
    (.error ("User with email " ++ uc.email ++ " already exists"), db)
  else
    let u : User :=
      { id := db.nextUserId, email := uc.email,
        hashed_password := get_password_hash salt uc.password,
        is_active := uc.is_active, is_admin := uc.is_admin }
    (.ok u, { db with users := db.users ++ [u], nextUserId := db.nextUserId + 1 })

/-! ## Ownership-scoped resource store (backend/repository.py and crud.py) -/

/-- `TodoRepository.get_user_todo`: first row of
`SELECT * FROM todo WHERE id = ? AND owner_id = ?`. -/
def get_user_todo (db : DB) (todo_id : Nat) (owner_id : Nat) : Option Todo :=
  db.todos.find? (fun t => t.id == todo_id && t.owner_id == owner_id)

/-- crud.py `get_todo`: the same query as `get_user_todo`. -/
def get_todo (db : DB) (todo_id : Nat) (owner_id : Nat) : Option Todo :=
  db.todos.find? (fun t => t.id == todo_id && t.owner_id == owner_id)

/-- `TodoRepository.create`: builds the row from the schema plus the given
`owner_id` and inserts.  No owner-existence check is made, and the engine
(SQLite, created without `PRAGMA foreign_keys`) does not enforce the declared
foreign key, so the insert commits for any `owner_id`. -/
def TodoRepository_create (db : DB) (tc : TodoCreate) (owner_id : Nat) :
    Except String Todo × DB :=
  let t : Todo :=
    { id := db.nextTodoId, title := tc.title, description := tc.description,
      is_done := tc.is_done, owner_id := owner_id }
  (.ok t, { db with todos := db.todos ++ [t], nextTodoId := db.nextTodoId + 1 })

/-- crud.py `create_user_todo`: first checks `session.get(User, user_id)` and
raises when the owner is missing (the inner `ValueError` is re-wrapped by the
generic handler, hence the prefixed message); otherwise inserts as above. -/
def create_user_todo (db : DB) (tc : TodoCreate) (user_id : Nat) :
    Except String Todo × DB :=
  match get_user_by_id db user_id with
  | none =>
    (.error ("Error creating todo: User with id " ++ toString user_id ++ " not found"), db)
  | some _ =>
    let t : Todo :=
      { id := db.nextTodoId, title := tc.title, description := tc.description,
        is_done := tc.is_done, owner_id := user_id }
    (.ok t, { db with todos := db.todos ++ [t], nextTodoId := db.nextTodoId + 1 })

/-- The `setattr` loop of `TodoRepository.update` over
`model_dump(exclude_unset=True)`: each transmitted field overwrites the row's
field; `id` and `owner_id` are not fields of the schema and are untouched.
(An explicit `null` for `title` or `is_done` is handled by the caller, since
it can only fail the NOT NULL constraints at commit.) -/
def applyTodoUpdate (u : TodoUpdate) (t : Todo) : Todo :=
  { t with
    title := match u.title with
      | some (some s) => s
      | _ => t.title
    description := match u.description with
      | some d => d
      | none => t.description
    is_done := match u.is_done with
      | some (some b) => b
      | _ => t.is_done }

/-- `TodoRepository.update`: looks the row up through the ownership-scoped
query, returning `None` when it is absent or foreign-owned; applies the
transmitted fields and commits.  A transmitted `null` for a NOT NULL column
fails at commit, is rolled back and re-raised as `ValueError`. -/
def TodoRepository_update (db : DB) (todo_id : Nat) (u : TodoUpdate) (owner_id : Nat) :
    Except String (Option Todo) × DB :=
  match get_user_todo db todo_id owner_id with
  | none => (.ok none, db)
  | some t =>
    if u.title = some none ∨ u.is_done = some none then
      (.error "Error updating todo: NOT NULL constraint failed", db)
    else
      let t2 := applyTodoUpdate u t
      (.ok (some t2),
        { db with todos := db.todos.map (fun x => if x.id == t.id then t2 else x) })

/-! ## Authorization gate (backend/security.py, `get_current_user`) and the
open registration endpoint (backend/main.py, `create_user`) -/

/-- The single `credentials_exception` raised on every failure of
`get_current_user`. -/
def credentialsException : HttpError :=
  { statusCode := 401, detail := "Could not validate credentials" }

/-- backend/security.py, `get_current_user`.  With `DEBUG_MODE=true` the
token is never examined: the stored `admin@example.com` row is returned as
is, or created (active admin) when absent.  Otherwise the token is decoded
(signature and expiry), the `sub` claim extracted, and the subject looked up;
every failure raises the one `credentials_exception`. -/
def get_current_user (debug_mode : Bool) (salt : Nat) (token : JwtToken) (db : DB)
    (now : Int) : Except HttpError User × DB :=
  if debug_mode then
    match get_by_email db "admin@example.com" with
    | some admin => (.ok admin, db)
    | none =>
      let admin : User :=
        { id := db.nextUserId, email := "admin@example.com",
          hashed_password := get_password_hash salt "adminpassword",
          is_active := true, is_admin := true }
      (.ok admin, { db with users := db.users ++ [admin], nextUserId := db.nextUserId + 1 })
  else
    match jwtDecode token SECRET_KEY now with
    | .error _ => (.error credentialsException, db)
    | .ok payload =>
      match payload.sub with
      | none => (.error credentialsException, db)
      | some email =>
        match get_by_email db email with
        | none => (.error credentialsException, db)
        | some user => (.ok user, db)

/-- backend/main.py, `POST /users/` (`create_user`): the handler takes only
the request body and a session — no token, no current-user dependency — and
delegates to `UserRepository.create`, mapping `ValueError` to a 400. -/
def create_user_endpoint (db : DB) (salt : Nat) (uc : UserCreate) :
    Except HttpError User × DB :=
  match UserRepository_create db salt uc with
  | (.ok u, db2) => (.ok u, db2)
  | (.error msg, db2) => (.error { statusCode := 400, detail := msg }, db2)

/-! ## Lemmas about the credential codec model -/

theorem consumeLit_append (l rest : List Char) : consumeLit l (l ++ rest) = some rest := by
  induction l with
  | nil => rfl
  | cons c cs ih => simp [consumeLit, ih]

theorem splitSalt_replicate (n : Nat) (rest : List Char) :
    splitSalt (List.replicate n 'x' ++ '$' :: rest) = some (n, rest) := by
  induction n with
  | zero => simp [splitSalt]
  | succ k ih => simp [List.replicate_succ, splitSalt, ih]

theorem get_password_hash_data (salt : Nat) (p : String) :
    (get_password_hash salt p).data
      = "$2b$12$".data ++ (List.replicate salt 'x' ++ '$' :: (bcryptTransform salt p).data) := by
  have h1 : "$".data = ['$'] := rfl
  simp [get_password_hash, String.data_append, h1, List.append_assoc]

theorem parseBcrypt_hash (salt : Nat) (p : String) :
    parseBcrypt (get_password_hash salt p) = some (salt, (bcryptTransform salt p).data) := by
  unfold parseBcrypt
  rw [get_password_hash_data, consumeLit_append]
  exact splitSalt_replicate salt _

theorem get_password_hash_length (salt : Nat) (p : String) :
    (get_password_hash salt p).length = p.length + salt + 8 := by
  have h : (get_password_hash salt p).length = (get_password_hash salt p).data.length := rfl
  rw [h, get_password_hash_data]
  simp only [List.length_append, List.length_replicate, List.length_cons]
  have h2 : (bcryptTransform salt p).data.length = p.length := by
    show (p.data.map _).length = p.length
    rw [List.length_map]
    rfl
  rw [h2]
  simp only [List.length_nil]
  omega

theorem get_password_hash_ne (salt : Nat) (p : String) : get_password_hash salt p ≠ p := by
  intro h
  have hl := congrArg String.length h
  rw [get_password_hash_length] at hl
  omega

theorem verify_password_hash_self (salt : Nat) (p : String) :
    verify_password p (get_password_hash salt p) = .ok true := by
  simp [verify_password, pwdContextVerify, parseBcrypt_hash]

/-! ## Shared concrete inputs for closed instantiations -/

/-- An empty store. -/
def dbEmpty : DB := { users := [], todos := [], nextUserId := 1, nextTodoId := 1 }

/-- A registration request whose body sets the admin flag. -/
def ucEve : UserCreate :=
  { email := "eve@example.com", password := "longpassword", is_active := true, is_admin := true }

/-! ## Claim C6 -/

/-- C6 counterexample: the claim states that the credential verify operation
never raises and returns `false` for a malformed hash.  On the string
`"nothash"`, which no hashing scheme identifies, `verify_password` propagates
passlib's `UnknownHashError` instead of returning `false`: the function body
is a bare `pwd_context.verify` call with no exception handling. -/
theorem c6_counterexample :
    verify_password "password123" "nothash" = .error PasslibError.unknownHash ∧
    verify_password "password123" "nothash" ≠ .ok false := by
  exact ⟨by decide, by decide⟩

/-- C6 amended: for a recognizable hash, `verify_password` returns a boolean —
`true` exactly when the plaintext reproduces the stored digest under the
transform with the stored salt, and in particular `true` on the hash of the
same password and `false` when the transforms differ; for a hash no scheme
identifies it does not return `false` but propagates `UnknownHashError`. -/
theorem c6_amended (p h : String) :
    (parseBcrypt h = none → verify_password p h = .error PasslibError.unknownHash) ∧
    (∀ salt digest, parseBcrypt h = some (salt, digest) →
      verify_password p h = .ok (decide ((bcryptTransform salt p).data = digest))) ∧
    (∀ salt, verify_password p (get_password_hash salt p) = .ok true) ∧
    (∀ salt q, bcryptTransform salt q ≠ bcryptTransform salt p →
      verify_password p (get_password_hash salt q) = .ok false) := by
  refine ⟨?_, ?_, fun salt => verify_password_hash_self salt p, ?_⟩
  · intro hn
    simp [verify_password, pwdContextVerify, hn]
  · intro salt digest hs
    simp [verify_password, pwdContextVerify, hs]
  · intro salt q hne
    unfold verify_password pwdContextVerify
    rw [parseBcrypt_hash]
    have hfalse : ((bcryptTransform salt p).data = (bcryptTransform salt q).data) = False := by
      apply eq_false
      intro hd
      exact hne (String.ext hd).symm
    simp [hfalse]

/-- C6 witness: the amended statement at concrete inputs — an unrecognizable
hash propagates the error, and a genuine hash of the password verifies. -/
theorem c6_witness :
    verify_password "pw123456" "plainhash" = .error PasslibError.unknownHash ∧
    verify_password "pw123456" (get_password_hash 3 "pw123456") = .ok true :=
  ⟨(c6_amended "pw123456" "plainhash").1 (by decide),
   (c6_amended "pw123456" "plainhash").2.2.1 3⟩

/-! ## Claim C8 -/

/-- C8: for a valid registration (password length at least 8) whose email is
free, `create` succeeds, `find_by_key` on the new store returns the created
identity, the stored credential hash differs from the plaintext password, and
verifying that password against the stored hash yields `true`. -/
theorem c8_create_find_verify (db : DB) (salt : Nat) (uc : UserCreate)
    (_hvalid : uc.passwordOk)
    (hfree : ∀ u ∈ db.users, u.email ≠ uc.email) :
    ∃ u db2, UserRepository_create db salt uc = (.ok u, db2) ∧
      get_by_email db2 uc.email = some u ∧
      u.hashed_password ≠ uc.password ∧
      verify_password uc.password u.hashed_password = .ok true := by
  have hany : db.users.any (fun u => u.email == uc.email) = false := by
    rw [List.any_eq_false]
    intro x hx
    simpa using hfree x hx
  refine ⟨{ id := db.nextUserId, email := uc.email,
            hashed_password := get_password_hash salt uc.password,
            is_active := uc.is_active, is_admin := uc.is_admin },
          { db with
            users := db.users ++ [{ id := db.nextUserId, email := uc.email,
                                    hashed_password := get_password_hash salt uc.password,
                                    is_active := uc.is_active, is_admin := uc.is_admin }],
            nextUserId := db.nextUserId + 1 },
          ?_, ?_, get_password_hash_ne salt uc.password,
          verify_password_hash_self salt uc.password⟩
  · simp [UserRepository_create, hany]
  · have h1 : db.users.find? (fun u => u.email == uc.email) = none := by
      rw [List.find?_eq_none]
      intro x hx
      simpa using hfree x hx
    simp [get_by_email, List.find?_append, h1]

/-- C8 witness: the theorem instantiated at a concrete registration against
the empty store. -/
theorem c8_witness :
    ∃ u db2, UserRepository_create dbEmpty 2 ucEve = (.ok u, db2) ∧
      get_by_email db2 ucEve.email = some u ∧
      u.hashed_password ≠ ucEve.password ∧
      verify_password ucEve.password u.hashed_password = .ok true :=
  c8_create_find_verify dbEmpty 2 ucEve
    (by show 8 ≤ ucEve.password.length; decide)
    (by simp [dbEmpty])

/-! ## Claim C1 -/

/-- C1: the ownership-scoped lookup returns a resource exactly when a stored
resource carries the requested id AND its owner equals the given identity; in
every other case — the id absent, or present under a different owner — it
returns the same `none`, and crud's `get_todo` is the same query as the
repository's `get_user_todo`. -/
theorem c1_get_owned_scope (db : DB) (r o : Nat) :
    (∀ t, get_user_todo db r o = some t → t ∈ db.todos ∧ t.id = r ∧ t.owner_id = o) ∧
    ((∃ t ∈ db.todos, t.id = r ∧ t.owner_id = o) → (get_user_todo db r o).isSome) ∧
    ((¬ ∃ t ∈ db.todos, t.id = r ∧ t.owner_id = o) → get_user_todo db r o = none) ∧
    get_todo db r o = get_user_todo db r o := by
  refine ⟨?_, ?_, ?_, rfl⟩
  · intro t ht
    have hmem := List.mem_of_find?_eq_some ht
    have hp := List.find?_some ht
    simp only [Bool.and_eq_true, beq_iff_eq] at hp
    exact ⟨hmem, hp.1, hp.2⟩
  · rintro ⟨t, hmem, h1, h2⟩
    show (db.todos.find? (fun t => t.id == r && t.owner_id == o)).isSome
    rw [List.find?_isSome]
    exact ⟨t, hmem, by simp [h1, h2]⟩
  · intro hn
    show db.todos.find? (fun t => t.id == r && t.owner_id == o) = none
    rw [List.find?_eq_none]
    intro x hx
    simp only [Bool.and_eq_true, beq_iff_eq, not_and]
    intro h1 h2
    exact hn ⟨x, hx, h1, h2⟩

/-- A stored resource owned by identity 7. -/
def todoA : Todo :=
  { id := 1, title := "Buy milk", description := none, is_done := false, owner_id := 7 }

/-- A store holding exactly `todoA`. -/
def dbOne : DB := { users := [], todos := [todoA], nextUserId := 1, nextTodoId := 2 }

/-- C1 witness: the resource with id 1 exists under owner 7, yet owner 5
receives the same absent answer as for a nonexistent id, while the true owner
receives the resource. -/
theorem c1_witness :
    get_user_todo dbOne 1 5 = none ∧ (get_user_todo dbOne 1 7).isSome :=
  ⟨(c1_get_owned_scope dbOne 1 5).2.2.1 (by decide),
   (c1_get_owned_scope dbOne 1 7).2.1 (by decide)⟩

/-! ## Claim C7 -/

/-- C7: creating an identity whose key exactly equals a stored identity's key
(case-sensitive string equality) fails with the duplicate error and returns
the store unchanged — rollback leaves every field of the original identity
equal to its prior value. -/
theorem c7_duplicate_create (db : DB) (salt : Nat) (uc : UserCreate)
    (hdup : ∃ u ∈ db.users, u.email = uc.email) :
    UserRepository_create db salt uc =
      (.error ("User with email " ++ uc.email ++ " already exists"), db) := by
  obtain ⟨u, hu, he⟩ := hdup
  have hany : db.users.any (fun v => v.email == uc.email) = true := by
    rw [List.any_eq_true]
    exact ⟨u, hu, by simp [he]⟩
  simp [UserRepository_create, hany]

/-- The identity already registered under `eve@example.com`. -/
def userDup : User :=
  { id := 1, email := "eve@example.com", hashed_password := get_password_hash 1 "longpassword",
    is_active := true, is_admin := false }

/-- A store holding exactly `userDup`. -/
def dbDup : DB := { users := [userDup], todos := [], nextUserId := 2, nextTodoId := 1 }

/-- C7 witness: re-registering `eve@example.com` fails with the duplicate
error and the store (hence the original row) is unchanged. -/
theorem c7_witness :
    UserRepository_create dbDup 4 ucEve =
      (.error ("User with email " ++ ucEve.email ++ " already exists"), dbDup) :=
  c7_duplicate_create dbDup 4 ucEve ⟨userDup, by simp [dbDup], rfl⟩

/-! ## Claim C3 -/

/-- C3: the open registration endpoint — whose embedding takes no caller
identity or token, mirroring the absence of any authentication dependency on
`POST /users/` — passes the schema's `is_admin` (and `is_active`) flags
through `UserRepository.create` unchanged into the stored identity. -/
theorem c3_admin_flag_persisted (db : DB) (salt : Nat) (uc : UserCreate)
    (hfree : ∀ u ∈ db.users, u.email ≠ uc.email) :
    ∃ u db2, create_user_endpoint db salt uc = (.ok u, db2) ∧
      u.is_admin = uc.is_admin ∧ u.is_active = uc.is_active ∧ u.email = uc.email ∧
      u ∈ db2.users := by
  have hany : db.users.any (fun v => v.email == uc.email) = false := by
    rw [List.any_eq_false]
    intro x hx
    simpa using hfree x hx
  refine ⟨{ id := db.nextUserId, email := uc.email,
            hashed_password := get_password_hash salt uc.password,
            is_active := uc.is_active, is_admin := uc.is_admin },
          { db with
            users := db.users ++ [{ id := db.nextUserId, email := uc.email,
                                    hashed_password := get_password_hash salt uc.password,
                                    is_active := uc.is_active, is_admin := uc.is_admin }],
            nextUserId := db.nextUserId + 1 },
          ?_, rfl, rfl, rfl, ?_⟩
  · simp [create_user_endpoint, UserRepository_create, hany]
  · simp

/-- C3 witness: an unauthenticated registration with `is_admin := true`
persists an admin identity. -/
theorem c3_witness :
    ∃ u db2, create_user_endpoint dbEmpty 0 ucEve = (.ok u, db2) ∧
      u.is_admin = true ∧ u ∈ db2.users := by
  obtain ⟨u, db2, h1, h2, h3, h4, h5⟩ := c3_admin_flag_persisted dbEmpty 0 ucEve (by simp [dbEmpty])
  exact ⟨u, db2, h1, h2.trans rfl, h5⟩

/-! ## Claim C2 -/

/-- The subject identity used in the token-boundary instances. -/
def userExp : User :=
  { id := 1, email := "t@example.com", hashed_password := "x",
    is_active := true, is_admin := false }

/-- A store holding exactly `userExp`. -/
def dbExp : DB := { users := [userExp], todos := [], nextUserId := 2, nextTodoId := 1 }

/-- A well-formed token for `t@example.com` issued at instant 40 with ttl 60,
hence expiring at instant 100. -/
def tokForT : JwtToken := create_access_token (some "t@example.com") 40 (some 60)

/-- C2 counterexample: the claim states that verification at exactly the
expiry instant fails.  The decoder raises `ExpiredSignatureError` only when
`exp < now`, so this token, presented at exactly its expiry instant 100,
resolves successfully to its subject. -/
theorem c2_counterexample :
    tokForT.payload.exp = some 100 ∧
    get_current_user false 0 tokForT dbExp 100 = (.ok userExp, dbExp) := by
  exact ⟨by decide, by decide⟩

/-- C2 amended: resolving a presented token fails precisely when the
signature is invalid, the expiry instant is strictly in the past (at exactly
the expiry instant verification still succeeds), the payload has no subject,
or the subject identity no longer exists; every failure surfaces as the one
`credentials_exception` (401), the store is never changed, and resolution
succeeds at every instant up to and including expiry for an untampered token
whose subject exists. -/
theorem c2_resolve_amended (salt : Nat) (token : JwtToken) (db : DB) (now : Int) :
    ((get_current_user false salt token db now).1 = .error credentialsException ↔
      token.key ≠ SECRET_KEY ∨
      (∃ e, token.payload.exp = some e ∧ e < now) ∨
      token.payload.sub = none ∨
      (∃ em, token.payload.sub = some em ∧ get_by_email db em = none)) ∧
    (∀ err, (get_current_user false salt token db now).1 = .error err →
      err = credentialsException) ∧
    ((get_current_user false salt token db now).2 = db) ∧
    (∀ em u, token.key = SECRET_KEY → token.payload.sub = some em →
      (∀ e, token.payload.exp = some e → now ≤ e) → get_by_email db em = some u →
      get_current_user false salt token db now = (.ok u, db)) := by
  by_cases hk : token.key = SECRET_KEY
  · cases hexp : token.payload.exp with
    | some e =>
      by_cases hlt : e < now
      · have hgcu : get_current_user false salt token db now =
            (.error credentialsException, db) := by
          simp [get_current_user, jwtDecode, hk, hexp, hlt]
        refine ⟨?_, ?_, ?_, ?_⟩
        · rw [hgcu]
          simp [hlt]
        · intro err herr
          rw [hgcu] at herr
          simp at herr
          exact herr.symm
        · rw [hgcu]
        · intro em u _ _ hbound _
          have := hbound e rfl
          omega
      · cases hsub : token.payload.sub with
        | none =>
          have hgcu : get_current_user false salt token db now =
              (.error credentialsException, db) := by
            simp [get_current_user, jwtDecode, hk, hexp, hlt, hsub]
          refine ⟨?_, ?_, ?_, ?_⟩
          · rw [hgcu]
            simp
          · intro err herr
            rw [hgcu] at herr
            simp at herr
            exact herr.symm
          · rw [hgcu]
          · intro em u _ hsub2 _ _
            exact Option.noConfusion hsub2
        | some em =>
          cases hfind : get_by_email db em with
          | none =>
            have hgcu : get_current_user false salt token db now =
                (.error credentialsException, db) := by
              simp [get_current_user, jwtDecode, hk, hexp, hlt, hsub, hfind]
            refine ⟨?_, ?_, ?_, ?_⟩
            · rw [hgcu]
              simp [hfind]
            · intro err herr
              rw [hgcu] at herr
              simp at herr
              exact herr.symm
            · rw [hgcu]
            · intro em2 u _ hsub2 _ hfind2
              cases hsub2
              rw [hfind] at hfind2
              exact Option.noConfusion hfind2
          | some u =>
            have hgcu : get_current_user false salt token db now = (.ok u, db) := by
              simp [get_current_user, jwtDecode, hk, hexp, hlt, hsub, hfind]
            refine ⟨?_, ?_, ?_, ?_⟩
            · rw [hgcu]
              simp [hk, hlt, hfind]
            · intro err herr
              rw [hgcu] at herr
              simp at herr
            · rw [hgcu]
            · intro em2 u2 _ hsub2 _ hfind2
              cases hsub2
              rw [hfind] at hfind2
              cases hfind2
              exact hgcu
    | none =>
      cases hsub : token.payload.sub with
      | none =>
        have hgcu : get_current_user false salt token db now =
            (.error credentialsException, db) := by
          simp [get_current_user, jwtDecode, hk, hexp, hsub]
        refine ⟨?_, ?_, ?_, ?_⟩
        · rw [hgcu]
          simp
        · intro err herr
          rw [hgcu] at herr
          simp at herr
          exact herr.symm
        · rw [hgcu]
        · intro em u _ hsub2 _ _
          exact Option.noConfusion hsub2
      | some em =>
        cases hfind : get_by_email db em with
        | none =>
          have hgcu : get_current_user false salt token db now =
              (.error credentialsException, db) := by
            simp [get_current_user, jwtDecode, hk, hexp, hsub, hfind]
          refine ⟨?_, ?_, ?_, ?_⟩
          · rw [hgcu]
            simp [hfind]
          · intro err herr
            rw [hgcu] at herr
            simp at herr
            exact herr.symm
          · rw [hgcu]
          · intro em2 u _ hsub2 _ hfind2
            cases hsub2
            rw [hfind] at hfind2
            exact Option.noConfusion hfind2
        | some u =>
          have hgcu : get_current_user false salt token db now = (.ok u, db) := by
            simp [get_current_user, jwtDecode, hk, hexp, hsub, hfind]
          refine ⟨?_, ?_, ?_, ?_⟩
          · rw [hgcu]
            simp [hk, hfind]
          · intro err herr
            rw [hgcu] at herr
            simp at herr
          · rw [hgcu]
          · intro em2 u2 _ hsub2 _ hfind2
            cases hsub2
            rw [hfind] at hfind2
            cases hfind2
            exact hgcu
  · have hgcu : get_current_user false salt token db now =
        (.error credentialsException, db) := by
      simp [get_current_user, jwtDecode, hk]
    refine ⟨?_, ?_, ?_, ?_⟩
    · rw [hgcu]
      simp [hk]
    · intro err herr
      rw [hgcu] at herr
      simp at herr
      exact herr.symm
    · rw [hgcu]
    · intro em u hkey _ _ _
      exact absurd hkey hk

/-- C2 witness: the amended statement at a concrete instant strictly before
expiry — the token issued at 40 with ttl 60 resolves at instant 99. -/
theorem c2_witness :
    get_current_user false 0 tokForT dbExp 99 = (.ok userExp, dbExp) :=
  (c2_resolve_amended 0 tokForT dbExp 99).2.2.2 "t@example.com" userExp rfl rfl
    (by
      intro e he
      rw [show tokForT.payload.exp = some (100 : Int) from rfl] at he
      injection he with h
      omega)
    (by decide)

/-! ## Claim C4 -/

/-- A pre-existing, self-registered identity occupying the key
`admin@example.com` with neither flag set. -/
def strangerAdmin : User :=
  { id := 1, email := "admin@example.com", hashed_password := "h",
    is_active := false, is_admin := false }

/-- A store holding exactly `strangerAdmin`. -/
def dbStranger : DB :=
  { users := [strangerAdmin], todos := [], nextUserId := 2, nextTodoId := 1 }

/-- A token that is tampered (wrong key), expired and subject-free. -/
def tokGarbage : JwtToken :=
  { payload := { sub := none, exp := some (-5) }, key := "forged" }

/-- C4 counterexample: the claim states that in debug mode `get_current_user`
returns an identity with admin and active flags set.  When a row with key
`admin@example.com` already exists, the code returns that row as stored: here
an inactive non-admin, so neither flag is set. -/
theorem c4_counterexample :
    get_current_user true 0 tokGarbage dbStranger 0 = (.ok strangerAdmin, dbStranger) ∧
    strangerAdmin.is_admin = false ∧ strangerAdmin.is_active = false := by
  exact ⟨by decide, rfl, rfl⟩

/-- C4 amended: with `DEBUG_MODE=true`, `get_current_user` ignores the
presented token entirely (the result is the same for every token, with no
signature, expiry or subject check); it returns the stored identity with key
`admin@example.com` as is when one exists — whatever its flags — and
otherwise creates and returns that identity with admin and active flags
set. -/
theorem c4_debug_mode_amended (salt : Nat) (token : JwtToken) (db : DB) (now : Int) :
    (∀ token2, get_current_user true salt token db now =
      get_current_user true salt token2 db now) ∧
    (∀ a, get_by_email db "admin@example.com" = some a →
      get_current_user true salt token db now = (.ok a, db)) ∧
    (get_by_email db "admin@example.com" = none →
      ∃ a db2, get_current_user true salt token db now = (.ok a, db2) ∧
        a.email = "admin@example.com" ∧ a.is_admin = true ∧ a.is_active = true ∧
        db2.users = db.users ++ [a]) := by
  refine ⟨fun token2 => rfl, ?_, ?_⟩
  · intro a ha
    simp [get_current_user, ha]
  · intro hnone
    refine ⟨{ id := db.nextUserId, email := "admin@example.com",
              hashed_password := get_password_hash salt "adminpassword",
              is_active := true, is_admin := true },
            { db with
              users := db.users ++ [{ id := db.nextUserId, email := "admin@example.com",
                                      hashed_password := get_password_hash salt "adminpassword",
                                      is_active := true, is_admin := true }],
              nextUserId := db.nextUserId + 1 },
            ?_, rfl, rfl, rfl, rfl⟩
    simp [get_current_user, hnone]

/-- C4 witness: the amended statement at concrete inputs — a store with no
`admin@example.com` row yields a freshly created active admin, for a token
that is tampered, expired and subject-free. -/
theorem c4_witness :
    ∃ a db2, get_current_user true 0 tokGarbage dbEmpty 0 = (.ok a, db2) ∧
      a.is_admin = true ∧ a.is_active = true := by
  obtain ⟨a, db2, h1, h2, h3, h4, h5⟩ :=
    (c4_debug_mode_amended 0 tokGarbage dbEmpty 0).2.2 (by decide)
  exact ⟨a, db2, h1, h3, h4⟩

/-! ## Claim C5 -/

/-- The creation request used in the dangling-owner scenario. -/
def tcOrphan : TodoCreate := { title := "orphan", description := none, is_done := false }

/-- C5: the claim (and spec section 4.4) requires creation with a dangling
`owner_id` to fail with OwnerNotFound and persist nothing.  The crud-layer
`create_user_todo` implements exactly that, but the repository path wired to
`POST /todos/` — `TodoRepository.create` — performs no owner check, and the
engine leaves the declared foreign key unenforced, so against an empty store
the create with `owner_id = 999` succeeds and persists the dangling
resource. -/
theorem c5_owner_check_bug :
    dbEmpty.users = [] ∧
    (∃ t db2, TodoRepository_create dbEmpty tcOrphan 999 = (.ok t, db2) ∧
      t.owner_id = 999 ∧ t ∈ db2.todos) ∧
    create_user_todo dbEmpty tcOrphan 999 =
      (.error "Error creating todo: User with id 999 not found", dbEmpty) := by
  refine ⟨rfl,
    ⟨{ id := 1, title := "orphan", description := none, is_done := false, owner_id := 999 },
     { users := [], nextUserId := 1, nextTodoId := 2,
       todos := [{ id := 1, title := "orphan", description := none,
                   is_done := false, owner_id := 999 }] },
     by decide, rfl, by decide⟩,
    by decide⟩

/-! ## Claims C9 and C10 -/

/-- Characterization of `TodoRepository.update` when the ownership-scoped
lookup finds the row and no NOT NULL constraint is violated: the transmitted
fields are applied and the row is replaced in place. -/
theorem TodoRepository_update_found (db : DB) (r : Nat) (u : TodoUpdate) (o : Nat)
    (t : Todo) (hget : get_user_todo db r o = some t)
    (hcond : ¬(u.title = some none ∨ u.is_done = some none)) :
    TodoRepository_update db r u o =
      (.ok (some (applyTodoUpdate u t)),
       { db with
          todos := db.todos.map (fun x => if x.id == t.id then applyTodoUpdate u t else x) }) := by
  simp [TodoRepository_update, hget, hcond]

/-- Characterization of `TodoRepository.update` when a NOT NULL column is
explicitly nulled: commit fails, the transaction is rolled back and the store
is unchanged. -/
theorem TodoRepository_update_null (db : DB) (r : Nat) (u : TodoUpdate) (o : Nat)
    (t : Todo) (hget : get_user_todo db r o = some t)
    (hcond : u.title = some none ∨ u.is_done = some none) :
    TodoRepository_update db r u o =
      (.error "Error updating todo: NOT NULL constraint failed", db) := by
  simp [TodoRepository_update, hget, hcond]

/-- C9: updating a resource the caller owns with an empty partial (no field
transmitted) returns the resource with every field equal to its prior value
and leaves the stored table unchanged, assuming the store's primary keys are
unique (the `todo.id` primary-key invariant). -/
theorem c9_empty_update_identity (db : DB) (r o : Nat) (u : TodoUpdate) (t : Todo)
    (hwf : (db.todos.map Todo.id).Nodup)
    (hget : get_user_todo db r o = some t)
    (h1 : u.title = none) (h2 : u.description = none) (h3 : u.is_done = none) :
    TodoRepository_update db r u o = (.ok (some t), db) := by
  have hmem : t ∈ db.todos := List.mem_of_find?_eq_some hget
  have hcond : ¬(u.title = some none ∨ u.is_done = some none) := by
    simp [h1, h3]
  have happ : applyTodoUpdate u t = t := by
    simp [applyTodoUpdate, h1, h2, h3]
  have hpt : ∀ x ∈ db.todos, (if x.id == t.id then t else x) = x := by
    intro x hx
    by_cases hid : x.id = t.id
    · have hxt : x = t := List.inj_on_of_nodup_map hwf hx hmem hid
      rw [hxt]
      simp
    · simp [hid]
  have hmap : db.todos.map (fun x => if x.id == t.id then t else x) = db.todos :=
    (List.map_congr_left hpt).trans (List.map_id' db.todos)
  rw [TodoRepository_update_found db r u o t hget hcond, happ, hmap]

/-- C9 witness: the empty partial applied to the stored resource of `dbOne`
returns it unchanged and leaves the store untouched. -/
theorem c9_witness :
    TodoRepository_update dbOne 1 ({} : TodoUpdate) 7 = (.ok (some todoA), dbOne) :=
  c9_empty_update_identity dbOne 1 7 {} todoA (by decide) (by decide) rfl rfl rfl

/-- C10: an update through the ownership-scoped path can change only the
title, description and completion fields: the returned resource keeps the
prior id and owner reference (which equal the requested id and the caller),
the user table is untouched, and every row of the post-state todo table
carries the id and owner of a pre-state row — the owner is never
reassigned. -/
theorem c10_update_frame (db : DB) (r o : Nat) (u : TodoUpdate) (t t2 : Todo) (db2 : DB)
    (hget : get_user_todo db r o = some t)
    (hupd : TodoRepository_update db r u o = (.ok (some t2), db2)) :
    t2.id = t.id ∧ t2.owner_id = t.owner_id ∧ t.id = r ∧ t.owner_id = o ∧
    db2.users = db.users ∧
    (∀ x ∈ db2.todos, ∃ y ∈ db.todos, y.id = x.id ∧ y.owner_id = x.owner_id) := by
  have hp := List.find?_some hget
  simp only [Bool.and_eq_true, beq_iff_eq] at hp
  have hmem : t ∈ db.todos := List.mem_of_find?_eq_some hget
  by_cases hcond : u.title = some none ∨ u.is_done = some none
  · rw [TodoRepository_update_null db r u o t hget hcond] at hupd
    simp at hupd
  · rw [TodoRepository_update_found db r u o t hget hcond] at hupd
    simp only [Prod.mk.injEq, Except.ok.injEq, Option.some.injEq] at hupd
    obtain ⟨ht2, hdb2⟩ := hupd
    subst ht2
    subst hdb2
    refine ⟨rfl, rfl, hp.1, hp.2, rfl, ?_⟩
    intro x hx
    rw [List.mem_map] at hx
    obtain ⟨y, hy, hyx⟩ := hx
    by_cases hid : y.id = t.id
    · have hx2 : x = applyTodoUpdate u t := by
        rw [← hyx]
        simp [hid]
      exact ⟨t, hmem, by rw [hx2]; rfl, by rw [hx2]; rfl⟩
    · have hx2 : x = y := by
        rw [← hyx]
        simp [hid]
      exact ⟨y, hy, by rw [hx2], by rw [hx2]⟩

/-- A partial update transmitting only a new title. -/
def tuTitle : TodoUpdate := { title := some (some "Wash car") }

/-- C10 witness: the frame theorem at a concrete title-only update of the
stored resource of `dbOne`: id and owner of the updated row equal their prior
values. -/
theorem c10_witness :
    (⟨1, "Wash car", none, false, 7⟩ : Todo).id = todoA.id ∧
    (⟨1, "Wash car", none, false, 7⟩ : Todo).owner_id = todoA.owner_id :=
  ⟨(c10_update_frame dbOne 1 7 tuTitle todoA ⟨1, "Wash car", none, false, 7⟩
      { users := [], todos := [⟨1, "Wash car", none, false, 7⟩], nextUserId := 1, nextTodoId := 2 }
      (by decide) (by decide)).1,
   (c10_update_frame dbOne 1 7 tuTitle todoA ⟨1, "Wash car", none, false, 7⟩
      { users := [], todos := [⟨1, "Wash car", none, false, 7⟩], nextUserId := 1, nextTodoId := 2 }
      (by decide) (by decide)).2.1⟩
